import Mathlib

/-!
Shallow embedding of the gattii serial-port engine thread
(`src/lib.rs`, `SerialThread::new`). The engine is a single worker loop
owning: an optional open device handle (`port`), an optional transfer
source file (`read_file`) with its progress counters, an optional log
sink (`write_file`), and the last-applied link settings (`settings`).
Each loop iteration (a "tick") processes at most one command, performs
device I/O and one transfer-pacer step, and runs a periodic port scan.

External effects (device open/read/write results, filesystem results,
timer expiries, the enumerated port list) are supplied per tick through
a `TickInput` oracle record; the step function is the faithful
translation of the loop body over those oracles. `Unwrap`-style panics
in the source are modelled by an explicit `panicked` outcome that
terminates the run.
-/

namespace Gattii

/-- serialport `DataBits` (5..8 data bits per character). -/
inductive DataBits
  | five | six | seven | eight
deriving DecidableEq

/-- serialport `StopBits`. -/
inductive StopBits
  | one | two
deriving DecidableEq

/-- serialport `Parity`. -/
inductive Parity
  | none | odd | even
deriving DecidableEq

/-- serialport `FlowControl`. -/
inductive FlowControl
  | none | software | hardware
deriving DecidableEq

/-- serialport `SerialPortSettings` (the timeout field, pure timing, is
absorbed into the per-tick oracles). `baud_rate` is a `u32` in the source;
no arithmetic in the engine can overflow it, so it is modelled as `Nat`. -/
structure SerialPortSettings where
  baud_rate : Nat
  data_bits : DataBits
  flow_control : FlowControl
  parity : Parity
  stop_bits : StopBits
deriving DecidableEq

/-- `SerialPortSettings::default()` in serialport: 9600 8N1, no flow control. -/
def defaultSettings : SerialPortSettings :=
  { baud_rate := 9600
    data_bits := DataBits.eight
    flow_control := FlowControl.none
    parity := Parity.none
    stop_bits := StopBits.one }

/-- Model of an open `Box<dyn SerialPort>` handle. `nameQ` is what
`p.name()` returns (the crate stores and returns the name the port was
opened with); `cfg` holds the settings currently applied to the handle,
which is what the queries `p.baud_rate()`, `p.parity()`, `p.stop_bits()`
used by the pacer return. `open_with_settings(name, settings)` yields
`{ nameQ := some name, cfg := settings }`; each successful `set_*` call
updates the corresponding `cfg` field. -/
structure Device where
  nameQ : Option String
  cfg : SerialPortSettings
deriving DecidableEq

/-- `SerialCommand` from src/lib.rs. `PathBuf` and byte vectors are
modelled as `String` / `List Nat`. -/
inductive SerialCommand
  | CancelSendFile
  | ChangeBaud (baud : Nat)
  | ChangeDataBits (d : DataBits)
  | ChangeFlowControl (f : FlowControl)
  | ChangeStopBits (sb : StopBits)
  | ChangeParity (p : Parity)
  | ChangePort (name : String)
  | ConnectToPort (name : String) (baud : Nat)
  | Disconnect
  | SendData (d : List Nat)
  | SendFile (f : String)
  | LogToFile (f : String)
  | CancelLogToFile
deriving DecidableEq

/-- `SerialResponse` from src/lib.rs. -/
inductive SerialResponse
  | Data (d : List Nat)
  | SendingFileCanceled
  | SendingFileComplete
  | SendingFileStarted
  | SendingFileProgress (pct : Nat)
  | SendingFileError (reason : String)
  | OpenPortSuccess (name : String)
  | OpenPortError (reason : String)
  | DisconnectSuccess
  | LogToFileError (reason : String)
  | LoggingFileCanceled
  | UnexpectedDisconnection (ports : List String)
  | PortsFound (ports : List String)
deriving DecidableEq

/-- Observable actions of the engine thread: enqueueing a response on the
response channel (`from_port_chan_tx.send(..)`) and invoking the
caller-supplied wake callback (`callback()`), in program order. -/
inductive Event
  | resp (r : SerialResponse)
  | wake
deriving DecidableEq

/-- The engine thread's mutable locals, aggregated. Field names follow the
source (`port`, `read_file`, `bytes_read`, `bytes_total`,
`last_percentage`, `write_file`, `settings`). File handles are modelled
as opaque numeric ids chosen by the environment. The two `Instant`
timestamps (`last_send_time`, `last_port_scan_time`) are pure timing and
are absorbed into the `sendElapsed` / `scanElapsed` oracle fields. -/
structure EngineState where
  port : Option Device
  read_file : Option Nat
  bytes_read : Nat
  bytes_total : Nat
  last_percentage : Nat
  write_file : Option Nat
  settings : SerialPortSettings
deriving DecidableEq

/-- State at engine start (`port = None`, no files, zeroed counters,
default settings). -/
def initState : EngineState :=
  { port := Option.none
    read_file := Option.none
    bytes_read := 0
    bytes_total := 0
    last_percentage := 0
    write_file := Option.none
    settings := defaultSettings }

/-- Outcome of `serialport::open_with_settings`. -/
inductive OpenOutcome
  | ok
  | errNoDevice
  | errOther (desc : String)
deriving DecidableEq

/-- Outcome of `file.read(..)` on the transfer source. -/
inductive FileReadOutcome
  | ok (n : Nat)
  | err
deriving DecidableEq

/-- Per-tick oracle for every external interaction of one loop iteration.
Each field models the result the corresponding external call would
return this tick (it is consulted only on the code path that makes the
call). `pctOracle` stands for the value of the floating-point expression
`(bytes_read as f32 / bytes_total as f32 * 100.0) as u8` (a value in
0..=255); floating-point arithmetic is outside this embedding, so the
cast's result is taken as an input. -/
structure TickInput where
  /-- `to_port_chan_rx.try_recv()`: at most one pending command. -/
  cmd : Option SerialCommand
  /-- result of `serialport::open_with_settings` (ConnectToPort / ChangePort). -/
  openResult : OpenOutcome
  /-- `fs::metadata(&f)`: `some len` on success, `none` on error (SendFile). -/
  metadataLen : Option Nat
  /-- `File::open(f)`: `some` handle id on success (SendFile). -/
  fileOpen : Option Nat
  /-- `File::create(f)`: `some` handle id on success (LogToFile). -/
  fileCreate : Option Nat
  /-- whether the live `p.set_*` reconfiguration call succeeds (Change*). -/
  setOk : Bool
  /-- bytes delivered by `p.read(serial_buf)`; `[]` covers both `Ok(0)` and `Err`.
  A real read returns at most the 1000-byte buffer; lengths are not otherwise used. -/
  rxData : List Nat
  /-- `last_send_time.elapsed().subsec_nanos() > loop_time * 1_000_000`. -/
  sendElapsed : Bool
  /-- result of `file.read(&mut serial_buf_rx[..tx_data_len])` on the source file. -/
  fileRead : FileReadOutcome
  /-- whether `p.write(&serial_buf_rx[..x])` of the paced chunk succeeds. -/
  portWriteOk : Bool
  /-- `last_port_scan_time.elapsed() > port_scan_time`. -/
  scanElapsed : Bool
  /-- `list_ports()` result: `some` name list on `Ok`, `none` on `Err`
  (the source calls `.expect(..)` on it). -/
  scanPorts : Option (List String)
  /-- see structure docstring: the `f32` percentage cast, as an oracle. -/
  pctOracle : Nat
deriving DecidableEq

/-- Result of one loop iteration: either the thread dies on an
`unwrap`/`expect`/slice panic (carrying the events emitted before the
panic — those sends did happen), or the new state plus emitted events. -/
inductive StepOut
  | panicked (events : List Event)
  | ok (s : EngineState) (events : List Event)
deriving DecidableEq

/-- `let loop_time = 10usize; // ms`. -/
def loopTime : Nat := 10

/-- The per-character serial bit count computed by the pacer
(src/lib.rs lines 293-301): hard-coded `1 + 8` (start bit plus eight data
bits, regardless of the configured data bits), plus one if the device's
parity is not `None`, plus one or two for the device's stop bits. -/
def byteAsSerialBits (p : Device) : Nat :=
  let b1 := 1 + 8
  let b2 := if p.cfg.parity ≠ Parity.none then b1 + 1 else b1
  if p.cfg.stop_bits = StopBits.one then b2 + 1
  else if p.cfg.stop_bits = StopBits.two then b2 + 2
  else b2

/-- The paced chunk size (src/lib.rs line 306):
`baud as usize / byte_as_serial_bits / (1000 / loop_time)`. -/
def txDataLen (p : Device) : Nat :=
  p.cfg.baud_rate / byteAsSerialBits p / (1000 / loopTime)

/-- Modelled from the spec: numeric value of a `DataBits` setting. -/
def dataBitsCount : DataBits → Nat
  | DataBits.five => 5
  | DataBits.six => 6
  | DataBits.seven => 7
  | DataBits.eight => 8

/-- Modelled from the spec: numeric value of a `StopBits` setting. -/
def stopBitsCount : StopBits → Nat
  | StopBits.one => 1
  | StopBits.two => 2

/-- Modelled from the spec: the claimed per-character bit count,
"1 (start bit) + the configured data bits + (1 if parity is not none,
else 0) + the configured stop bits (1 or 2)". Stated for comparison with
the source's `byteAsSerialBits`. -/
def specBitsPerChar (c : SerialPortSettings) : Nat :=
  1 + dataBitsCount c.data_bits
    + (if c.parity ≠ Parity.none then 1 else 0)
    + stopBitsCount c.stop_bits

/-- Command dispatch (src/lib.rs lines 115-261): the
`match to_port_chan_rx.try_recv()` arms, one per `SerialCommand`
variant. Returns the updated state and the events (sends and callback
invocations) of that arm, or a panic where the source unwraps. -/
def applyCommand (s : EngineState) (c : SerialCommand) (i : TickInput) : StepOut :=
  match c with
  | SerialCommand.ConnectToPort name baud =>
    let settings := { s.settings with baud_rate := baud }
    match i.openResult with
    | OpenOutcome.ok =>
      StepOut.ok { s with settings := settings
                          port := Option.some { nameQ := Option.some name, cfg := settings } }
        [Event.resp (SerialResponse.OpenPortSuccess name), Event.wake]
    | OpenOutcome.errNoDevice =>
      StepOut.ok { s with settings := settings }
        [Event.resp (SerialResponse.OpenPortError
          ("Port \x27" ++ name ++ "\x27 is already in use or doesn\x27t exist")), Event.wake]
    | OpenOutcome.errOther desc =>
      StepOut.ok { s with settings := settings }
        [Event.resp (SerialResponse.OpenPortError desc), Event.wake]
  | SerialCommand.ChangeBaud baud =>
    let settings := { s.settings with baud_rate := baud }
    match s.port with
    | Option.some p =>
      if i.setOk then
        StepOut.ok { s with settings := settings
                            port := Option.some { p with cfg := { p.cfg with baud_rate := baud } } } []
      else StepOut.panicked []
    | Option.none => StepOut.ok { s with settings := settings } []
  | SerialCommand.ChangeDataBits d =>
    let settings := { s.settings with data_bits := d }
    match s.port with
    | Option.some p =>
      if i.setOk then
        StepOut.ok { s with settings := settings
                            port := Option.some { p with cfg := { p.cfg with data_bits := d } } } []
      else StepOut.panicked []
    | Option.none => StepOut.ok { s with settings := settings } []
  | SerialCommand.ChangeFlowControl f =>
    let settings := { s.settings with flow_control := f }
    match s.port with
    | Option.some p =>
      if i.setOk then
        StepOut.ok { s with settings := settings
                            port := Option.some { p with cfg := { p.cfg with flow_control := f } } } []
      else StepOut.panicked []
    | Option.none => StepOut.ok { s with settings := settings } []
  | SerialCommand.ChangeStopBits sb =>
    let settings := { s.settings with stop_bits := sb }
    match s.port with
    | Option.some p =>
      if i.setOk then
        StepOut.ok { s with settings := settings
                            port := Option.some { p with cfg := { p.cfg with stop_bits := sb } } } []
      else StepOut.panicked []
    | Option.none => StepOut.ok { s with settings := settings } []
  | SerialCommand.ChangeParity pa =>
    let settings := { s.settings with parity := pa }
    match s.port with
    | Option.some p =>
      if i.setOk then
        StepOut.ok { s with settings := settings
                            port := Option.some { p with cfg := { p.cfg with parity := pa } } } []
      else StepOut.panicked []
    | Option.none => StepOut.ok { s with settings := settings } []
  | SerialCommand.ChangePort name =>
    match s.port with
    | Option.some _ =>
      match i.openResult with
      | OpenOutcome.ok =>
        -- note: the source's success branch sends OpenPortSuccess but does
        -- not invoke callback() (unlike every other send site).
        StepOut.ok { s with port := Option.some { nameQ := Option.some name, cfg := s.settings } }
          [Event.resp (SerialResponse.OpenPortSuccess name)]
      | _ =>
        StepOut.ok { s with port := Option.none }
          [Event.resp (SerialResponse.OpenPortError
            ("Failed to open port \x27" ++ name ++ "\x27")), Event.wake]
    | Option.none => StepOut.ok s []
  | SerialCommand.Disconnect =>
    StepOut.ok { s with port := Option.none, read_file := Option.none, write_file := Option.none }
      [Event.resp SerialResponse.DisconnectSuccess, Event.wake]
  | SerialCommand.SendData _ =>
    -- write result is only logged (`error!`), no response, no state change
    StepOut.ok s []
  | SerialCommand.SendFile _ =>
    match s.port with
    | Option.some _ =>
      match i.metadataLen with
      | Option.none => StepOut.panicked []  -- fs::metadata(&f).unwrap()
      | Option.some len =>
        let s1 := { s with bytes_total := len, last_percentage := 0, bytes_read := 0 }
        let s2 :=
          match i.fileOpen with
          | Option.some h => { s1 with read_file := Option.some h }
          | Option.none => s1  -- File::open error is only logged
        StepOut.ok s2 [Event.resp SerialResponse.SendingFileStarted, Event.wake]
    | Option.none =>
      StepOut.ok s
        [Event.resp (SerialResponse.SendingFileError "No open port to send file"), Event.wake]
  | SerialCommand.CancelSendFile =>
    StepOut.ok { s with read_file := Option.none }
      [Event.resp SerialResponse.SendingFileCanceled, Event.wake]
  | SerialCommand.LogToFile _ =>
    match s.port with
    | Option.some _ =>
      match i.fileCreate with
      | Option.some h => StepOut.ok { s with write_file := Option.some h } []
      | Option.none => StepOut.ok s []  -- File::create error is only logged
    | Option.none =>
      StepOut.ok s
        [Event.resp (SerialResponse.LogToFileError "No open port to log file from"), Event.wake]
  | SerialCommand.CancelLogToFile =>
    StepOut.ok { s with write_file := Option.none }
      [Event.resp SerialResponse.LoggingFileCanceled, Event.wake]

/-- Phase 1 of a tick: consume at most one command
(`Err(TryRecvError::Empty | Disconnected)` arms do nothing). -/
def commandPhase (s : EngineState) (i : TickInput) : StepOut :=
  match i.cmd with
  | Option.none => StepOut.ok s []
  | Option.some c => applyCommand s c i

/-- Phase 2 of a tick (src/lib.rs lines 264-357), active only while a
port is open: read the device (any bytes become a `Data` response and
are duplicated to the log sink, whose short writes are only warned
about), then run one transfer-pacer step. Reading the source slices
`serial_buf_rx[..tx_data_len]` over a 1000-byte buffer, which panics if
`tx_data_len > 1000`; that panic is modelled. The `min` bounds the
oracle's read length by the sliced buffer's size. -/
def ioPhase (s : EngineState) (i : TickInput) : StepOut :=
  match s.port with
  | Option.none => StepOut.ok s []
  | Option.some p =>
    let ev1 : List Event :=
      if i.rxData.length > 0 then [Event.resp (SerialResponse.Data i.rxData), Event.wake]
      else []
    if i.sendElapsed then
      match s.read_file with
      | Option.some _ =>
        let tx := txDataLen p
        if tx > 1000 then StepOut.panicked ev1  -- slice index out of range
        else
          match i.fileRead with
          | FileReadOutcome.err =>
            -- ReadBytes::FileError, handled together with EndOfFile below:
            -- transfer ends with SendingFileComplete
            StepOut.ok { s with read_file := Option.none }
              (ev1 ++ [Event.resp SerialResponse.SendingFileComplete, Event.wake])
          | FileReadOutcome.ok n =>
            let len := min n tx
            if len = 0 then
              -- ReadBytes::EndOfFile
              StepOut.ok { s with read_file := Option.none }
                (ev1 ++ [Event.resp SerialResponse.SendingFileComplete, Event.wake])
            else
              -- ReadBytes::Bytes(len)
              let bytes_read := s.bytes_read + len
              let percentage := i.pctOracle
              let pr : Nat × List Event :=
                if s.last_percentage + 5 ≤ percentage then
                  (percentage, [Event.resp (SerialResponse.SendingFileProgress percentage), Event.wake])
                else (s.last_percentage, [])
              if i.portWriteOk then
                StepOut.ok { s with bytes_read := bytes_read, last_percentage := pr.1 }
                  (ev1 ++ pr.2)
              else
                StepOut.ok { s with bytes_read := bytes_read, last_percentage := pr.1,
                                    read_file := Option.none }
                  (ev1 ++ pr.2 ++
                   [Event.resp (SerialResponse.SendingFileError
                     ("Failed to send " ++ toString len ++ " bytes")), Event.wake])
      | Option.none => StepOut.ok s ev1
    else StepOut.ok s ev1

/-- Insertion of a string into a sorted list, ascending. -/
def insertSorted (a : String) : List String → List String
  | [] => [a]
  | b :: bs => if a ≤ b then a :: b :: bs else b :: insertSorted a bs

/-- Models `ports.sort()` (`Vec::sort`). Sorting by the total order on
strings has a unique result, so any correct sort — here insertion sort —
computes the same list as the source's stable merge sort. -/
def sortStrings : List String → List String
  | [] => []
  | a :: as => insertSorted a (sortStrings as)

/-- Phase 3 of a tick (src/lib.rs lines 360-387): the periodic port scan.
`list_ports()` failure hits the source's `.expect(..)` and panics. The
freshly sorted list is searched for the open port's name with
`binary_search`, which on a sorted list decides exactly membership,
modelled by `List.contains`. The message is sent unconditionally — there
is no comparison against a previous snapshot. -/
def scanPhase (s : EngineState) (i : TickInput) : StepOut :=
  if i.scanElapsed then
    match i.scanPorts with
    | Option.none => StepOut.panicked []
    | Option.some ports0 =>
      let ports := sortStrings ports0
      let message : SerialResponse :=
        match s.port with
        | Option.some p =>
          match p.nameQ with
          | Option.some name =>
            if ports.contains name then SerialResponse.PortsFound ports
            else SerialResponse.UnexpectedDisconnection ports
          | Option.none => SerialResponse.PortsFound ports
        | Option.none => SerialResponse.PortsFound ports
      let s9 : EngineState :=
        match message with
        | SerialResponse.UnexpectedDisconnection _ => { s with port := Option.none }
        | _ => s
      StepOut.ok s9 [Event.resp message, Event.wake]
  else StepOut.ok s []

/-- One full iteration of the engine loop: command phase, then device
I/O and pacer, then the periodic scan; a panic anywhere kills the thread
but the events already sent remain sent. -/
def stepFn (s : EngineState) (i : TickInput) : StepOut :=
  match commandPhase s i with
  | StepOut.panicked ev => StepOut.panicked ev
  | StepOut.ok s1 ev1 =>
    match ioPhase s1 i with
    | StepOut.panicked ev2 => StepOut.panicked (ev1 ++ ev2)
    | StepOut.ok s2 ev2 =>
      match scanPhase s2 i with
      | StepOut.panicked ev3 => StepOut.panicked (ev1 ++ ev2 ++ ev3)
      | StepOut.ok s3 ev3 => StepOut.ok s3 (ev1 ++ ev2 ++ ev3)

/-- Result of running a finite sequence of ticks. -/
inductive RunOut
  | panicked (tr : List Event)
  | ok (s : EngineState) (tr : List Event)
deriving DecidableEq

/-- Run the engine for a list of tick inputs, accumulating the trace. -/
def runEngine (s : EngineState) : List TickInput → RunOut
  | [] => RunOut.ok s []
  | i :: is =>
    match stepFn s i with
    | StepOut.panicked ev => RunOut.panicked ev
    | StepOut.ok s1 ev =>
      match runEngine s1 is with
      | RunOut.panicked tr => RunOut.panicked (ev ++ tr)
      | RunOut.ok s2 tr => RunOut.ok s2 (ev ++ tr)

/-- A state is reachable when some finite input sequence drives the
engine from `initState` to it without panicking. -/
def Reachable (s : EngineState) : Prop :=
  ∃ inputs tr, runEngine initState inputs = RunOut.ok s tr

/-- The terminal per-transfer responses named by the spec:
sending-file-complete, sending-file-canceled, sending-file-error. -/
def isTerminalResp : Event → Bool
  | Event.resp SerialResponse.SendingFileComplete => true
  | Event.resp SerialResponse.SendingFileCanceled => true
  | Event.resp (SerialResponse.SendingFileError _) => true
  | _ => false

/-- Whether every response enqueue in an event list is immediately
followed by a wake-callback invocation. -/
def wakeAfterEveryResp : List Event → Bool
  | [] => true
  | Event.wake :: rest => wakeAfterEveryResp rest
  | Event.resp _ :: Event.wake :: rest => wakeAfterEveryResp rest
  | Event.resp _ :: _ => false

/-- The five live-reconfiguration commands of the claim: change-baud,
change-data-bits, change-stop-bits, change-parity, change-flow-control. -/
def isLiveApplyCmd : SerialCommand → Bool
  | SerialCommand.ChangeBaud _ => true
  | SerialCommand.ChangeDataBits _ => true
  | SerialCommand.ChangeFlowControl _ => true
  | SerialCommand.ChangeStopBits _ => true
  | SerialCommand.ChangeParity _ => true
  | _ => false

/-- The scan's message-selection condition under which the open device (if
any) is still seen: no port open, an unnamed port, or the name present in
the sorted enumeration. Mirrors the branch structure of `scanPhase`. -/
def scanKeepsPort (s : EngineState) (ports : List String) : Bool :=
  match s.port with
  | Option.none => true
  | Option.some p =>
    match p.nameQ with
    | Option.none => true
    | Option.some n => ports.contains n

/-- A quiet tick: no pending command, no device data, no elapsed pacer or
scan timer. -/
def baseInput : TickInput :=
  { cmd := Option.none
    openResult := OpenOutcome.ok
    metadataLen := Option.none
    fileOpen := Option.none
    fileCreate := Option.none
    setOk := true
    rxData := []
    sendElapsed := false
    fileRead := FileReadOutcome.err
    portWriteOk := true
    scanElapsed := false
    scanPorts := Option.none
    pctOracle := 0 }

/-- A device handle opened as "COM1" with the default settings. -/
def dev1 : Device := { nameQ := Option.some "COM1", cfg := defaultSettings }

/-- Tick delivering `ConnectToPort("COM1", 9600)` with a successful open. -/
def connectInput : TickInput :=
  { baseInput with cmd := Option.some (SerialCommand.ConnectToPort "COM1" 9600)
                   openResult := OpenOutcome.ok }

/-- Tick delivering `SendFile("data.bin")`: metadata reports 100 bytes and
the source file opens as handle 1. -/
def sendFileInput : TickInput :=
  { baseInput with cmd := Option.some (SerialCommand.SendFile "data.bin")
                   metadataLen := Option.some 100
                   fileOpen := Option.some 1 }

/-- Tick delivering `LogToFile("log.txt")`: the destination opens as handle 2. -/
def logFileInput : TickInput :=
  { baseInput with cmd := Option.some (SerialCommand.LogToFile "log.txt")
                   fileCreate := Option.some 2 }

/-- Tick delivering `Disconnect`. -/
def disconnectInput : TickInput :=
  { baseInput with cmd := Option.some SerialCommand.Disconnect }

/-- Quiet tick on which the scan timer fires and the enumeration returns
only "COM3" (so an open "COM1" is absent). -/
def unplugScanInput : TickInput :=
  { baseInput with scanElapsed := true, scanPorts := Option.some ["COM3"] }

/-- Quiet tick on which the scan timer fires and the enumeration returns
only "COM1". -/
def scanCom1Input : TickInput :=
  { baseInput with scanElapsed := true, scanPorts := Option.some ["COM1"] }

/-! ## Phase bookkeeping lemmas (shared) -/

/-- Command-phase bookkeeping: each command emits at most one terminal
transfer response; an active transfer is cleared without a terminal
response only by `Disconnect`; a command that emits a terminal response
leaves no active transfer or no open port (so the pacer cannot emit a
second one in the same tick); and a transfer or log sink can be created
only while a port is open. -/
theorem applyCommand_spec (s : EngineState) (c : SerialCommand) (i : TickInput)
    (s1 : EngineState) (ev : List Event) (h : applyCommand s c i = StepOut.ok s1 ev) :
    ev.countP isTerminalResp ≤ 1 ∧
    (s.read_file.isSome = true → s1.read_file = Option.none →
      ev.countP isTerminalResp = 0 → c = SerialCommand.Disconnect) ∧
    (ev.countP isTerminalResp = 1 →
      s1.read_file = Option.none ∨ s1.port = Option.none) ∧
    (s.read_file = Option.none → s1.read_file.isSome = true → s.port.isSome = true) ∧
    (s.write_file = Option.none → s1.write_file.isSome = true → s.port.isSome = true) := by
  unfold applyCommand at h
  repeat' split at h
  all_goals try exact StepOut.noConfusion h
  all_goals injection h with hs he
  all_goals subst hs
  all_goals subst he
  all_goals simp_all [isTerminalResp]
  all_goals exact fun hh hn => by simp [hn] at hh

/-- Same bookkeeping lifted to the command phase (no pending command is a
no-op). -/
theorem commandPhase_spec (s : EngineState) (i : TickInput)
    (s1 : EngineState) (ev : List Event) (h : commandPhase s i = StepOut.ok s1 ev) :
    ev.countP isTerminalResp ≤ 1 ∧
    (s.read_file.isSome = true → s1.read_file = Option.none →
      ev.countP isTerminalResp = 0 → i.cmd = Option.some SerialCommand.Disconnect) ∧
    (ev.countP isTerminalResp = 1 →
      s1.read_file = Option.none ∨ s1.port = Option.none) ∧
    (s.read_file = Option.none → s1.read_file.isSome = true → s.port.isSome = true) ∧
    (s.write_file = Option.none → s1.write_file.isSome = true → s.port.isSome = true) := by
  unfold commandPhase at h
  cases hc : i.cmd with
  | none =>
    rw [hc] at h
    injection h with hs he
    subst hs; subst he
    refine ⟨by simp, fun hh hn hcnt => ?_, by simp, fun hn hh => ?_, fun hn hh => ?_⟩
    · simp [hn] at hh
    · simp [hn] at hh
    · simp [hn] at hh
  | some c =>
    rw [hc] at h
    obtain ⟨h1, h2, h3, h4, h5⟩ := applyCommand_spec s c i s1 ev h
    exact ⟨h1, fun a b cnt => by simp only [hc, h2 a b cnt], h3, h4, h5⟩

/-- I/O-and-pacer-phase bookkeeping: at most one terminal response; the
phase is inert on the transfer when none is active and entirely inert when
no port is open; a tick of it that emits no terminal response preserves the
transfer field; it never touches the log sink or the port, and never
creates a transfer. -/
theorem ioPhase_spec (s : EngineState) (i : TickInput)
    (s1 : EngineState) (ev : List Event) (h : ioPhase s i = StepOut.ok s1 ev) :
    ev.countP isTerminalResp ≤ 1 ∧
    (s.read_file = Option.none → s1 = s ∧ ev.countP isTerminalResp = 0) ∧
    (s.port = Option.none → s1 = s ∧ ev = []) ∧
    (ev.countP isTerminalResp = 0 → s1.read_file = s.read_file) ∧
    s1.write_file = s.write_file ∧ s1.port = s.port ∧
    (s1.read_file = s.read_file ∨ s1.read_file = Option.none) := by
  simp only [ioPhase] at h
  repeat' split at h
  all_goals try exact StepOut.noConfusion h
  all_goals injection h with hs he
  all_goals subst hs
  all_goals subst he
  all_goals simp_all [isTerminalResp]

/-- Scan-phase bookkeeping: the scan never emits a terminal transfer
response and never touches the transfer or log-sink fields. -/
theorem scanPhase_spec (s : EngineState) (i : TickInput)
    (s1 : EngineState) (ev : List Event) (h : scanPhase s i = StepOut.ok s1 ev) :
    ev.countP isTerminalResp = 0 ∧
    s1.read_file = s.read_file ∧ s1.write_file = s.write_file := by
  unfold scanPhase at h
  repeat' split at h
  all_goals try exact StepOut.noConfusion h
  all_goals injection h with hs he
  all_goals subst hs
  all_goals subst he
  all_goals repeat' split
  all_goals simp_all [isTerminalResp]

/-! ## Claim C1 -/

/-- Claim C1 (code behavior at the failing input): when a device is open and a
change-baud / change-data-bits / change-stop-bits / change-parity /
change-flow-control command's live apply to the device fails, the engine
thread panics on the `unwrap`, emitting no events at all — in particular
no error response — instead of surfacing the failure, contradicting the
claimed contract. -/
theorem C1_live_apply_failure_panics (s : EngineState) (i : TickInput) (c : SerialCommand)
    (h1 : i.cmd = Option.some c) (h2 : isLiveApplyCmd c = true)
    (h3 : s.port.isSome = true) (h4 : i.setOk = false) :
    stepFn s i = StepOut.panicked [] := by
  obtain ⟨p, hp⟩ := Option.isSome_iff_exists.mp h3
  cases c <;> simp_all [stepFn, commandPhase, applyCommand, isLiveApplyCmd]

/-- Witness for C1 at a concrete input: `ChangeBaud 115200` with "COM1" open
and a failing `set_baud_rate`. -/
theorem C1_live_apply_failure_panics_witness :
    ((({ baseInput with cmd := Option.some (SerialCommand.ChangeBaud 115200)
                        setOk := false } : TickInput).cmd
        = Option.some (SerialCommand.ChangeBaud 115200)) ∧
     isLiveApplyCmd (SerialCommand.ChangeBaud 115200) = true ∧
     ({ initState with port := Option.some dev1 } : EngineState).port.isSome = true) ∧
    stepFn { initState with port := Option.some dev1 }
      { baseInput with cmd := Option.some (SerialCommand.ChangeBaud 115200), setOk := false }
      = StepOut.panicked [] :=
  ⟨⟨rfl, rfl, by decide⟩,
   C1_live_apply_failure_panics
     { initState with port := Option.some dev1 }
     { baseInput with cmd := Option.some (SerialCommand.ChangeBaud 115200), setOk := false }
     (SerialCommand.ChangeBaud 115200) rfl rfl (by decide) rfl⟩

/-! ## Claim C2 -/

/-- Inputs of the C2 counterexample run: connect to "COM1", accept a
send-file (started is emitted), then disconnect. -/
def c2Inputs : List TickInput := [connectInput, sendFileInput, disconnectInput]

/-- Final state of the C2 counterexample run. -/
def c2Final : EngineState :=
  { port := Option.none, read_file := Option.none, bytes_read := 0,
    bytes_total := 100, last_percentage := 0, write_file := Option.none,
    settings := defaultSettings }

/-- Trace of the C2 counterexample run. -/
def c2Trace : List Event :=
  [Event.resp (SerialResponse.OpenPortSuccess "COM1"), Event.wake,
   Event.resp SerialResponse.SendingFileStarted, Event.wake,
   Event.resp SerialResponse.DisconnectSuccess, Event.wake]

/-- Claim C2 counterexample: a send-file is accepted (sending-file-started is
emitted), then a disconnect clears the transfer emitting only
disconnect-success; the complete run contains no terminal transfer response
(complete/canceled/error), the final state has no transfer, and a further
quiet tick is a no-op fixpoint — so this accepted transfer receives zero
terminal responses, refuting "never zero". -/
theorem C2_counterexample :
    runEngine initState c2Inputs = RunOut.ok c2Final c2Trace ∧
    c2Trace.contains (Event.resp SerialResponse.SendingFileStarted) = true ∧
    c2Trace.countP isTerminalResp = 0 ∧
    c2Final.read_file = Option.none ∧
    stepFn c2Final baseInput = StepOut.ok c2Final [] := by decide

/-- Claim C2 amended: in every non-panicking engine step at most one terminal
transfer response (complete, canceled or error) is emitted, and an active
transfer is only ever cleared without a terminal response by a disconnect
command — hence an accepted transfer receives at most one terminal response,
and exactly one unless it is discarded by disconnect, replaced by a later
accepted send-file, or was never created because the source failed to open
(started having been emitted regardless). -/
theorem C2_step_terminal_discipline (s : EngineState) (i : TickInput)
    (s9 : EngineState) (ev : List Event) (h : stepFn s i = StepOut.ok s9 ev) :
    ev.countP isTerminalResp ≤ 1 ∧
    (s.read_file.isSome = true → s9.read_file = Option.none →
      ev.countP isTerminalResp = 0 → i.cmd = Option.some SerialCommand.Disconnect) := by
  unfold stepFn at h
  cases h1 : commandPhase s i with
  | panicked ev1 => rw [h1] at h; exact StepOut.noConfusion h
  | ok s1 ev1 =>
    rw [h1] at h
    dsimp only [] at h
    cases h2 : ioPhase s1 i with
    | panicked ev2 => rw [h2] at h; exact StepOut.noConfusion h
    | ok s2 ev2 =>
      rw [h2] at h
      dsimp only [] at h
      cases h3 : scanPhase s2 i with
      | panicked ev3 => rw [h3] at h; exact StepOut.noConfusion h
      | ok s3 ev3 =>
        rw [h3] at h
        dsimp only [] at h
        injection h with hs he
        subst hs; subst he
        obtain ⟨c1le, cDisc, cTerm, _, _⟩ := commandPhase_spec s i s1 ev1 h1
        obtain ⟨i1le, iNoFile, iNoPort, iZero, _, _, _⟩ := ioPhase_spec s1 i s2 ev2 h2
        obtain ⟨sZero, sRf, _⟩ := scanPhase_spec s2 i s3 ev3 h3
        rw [List.countP_append, List.countP_append, sZero]
        constructor
        · rcases Nat.eq_zero_or_pos (ev1.countP isTerminalResp) with hz | hp
          · omega
          · have h1eq : ev1.countP isTerminalResp = 1 := le_antisymm c1le hp
            rcases cTerm h1eq with hrf | hpt
            · have := (iNoFile hrf).2
              omega
            · have := iNoPort hpt
              rw [this.2]
              simp
              omega
        · intro hA hB hC
          have hc1 : ev1.countP isTerminalResp = 0 := by omega
          have hc2 : ev2.countP isTerminalResp = 0 := by omega
          have e21 : s2.read_file = s1.read_file := iZero hc2
          rw [sRf, e21] at hB
          exact cDisc hA hB hc1

/-- Witness for C2 amended at a concrete input: a disconnect tick on a state
with an open device and an active transfer emits no terminal response while
clearing the transfer, and the conclusion names the disconnect command. -/
theorem C2_step_terminal_discipline_witness :
    (stepFn { initState with port := Option.some dev1, read_file := Option.some 1 }
       disconnectInput =
       StepOut.ok initState [Event.resp SerialResponse.DisconnectSuccess, Event.wake]) ∧
    ([Event.resp SerialResponse.DisconnectSuccess, Event.wake].countP isTerminalResp ≤ 1 ∧
     (({ initState with port := Option.some dev1,
                        read_file := Option.some 1 } : EngineState).read_file.isSome = true →
       initState.read_file = Option.none →
       [Event.resp SerialResponse.DisconnectSuccess, Event.wake].countP isTerminalResp = 0 →
       disconnectInput.cmd = Option.some SerialCommand.Disconnect)) :=
  ⟨by decide,
   C2_step_terminal_discipline
     { initState with port := Option.some dev1, read_file := Option.some 1 }
     disconnectInput initState
     [Event.resp SerialResponse.DisconnectSuccess, Event.wake] (by decide)⟩

/-! ## Claim C3 -/

/-- Inputs of the C3 counterexample run: connect to "COM1", accept a
send-file, then a scan whose enumeration no longer lists "COM1". -/
def c3Inputs : List TickInput := [connectInput, sendFileInput, unplugScanInput]

/-- Final state of the C3 counterexample run: an active transfer with no
device handle. -/
def c3Final : EngineState :=
  { port := Option.none, read_file := Option.some 1, bytes_read := 0,
    bytes_total := 100, last_percentage := 0, write_file := Option.none,
    settings := defaultSettings }

/-- Trace of the C3 counterexample run. -/
def c3Trace : List Event :=
  [Event.resp (SerialResponse.OpenPortSuccess "COM1"), Event.wake,
   Event.resp SerialResponse.SendingFileStarted, Event.wake,
   Event.resp (SerialResponse.UnexpectedDisconnection ["COM3"]), Event.wake]

/-- Claim C3 counterexample: a reachable engine state (after connect, an
accepted send-file, and a hot-unplug scan) in which an active transfer is
present but the device handle is not, refuting the claimed invariant. -/
theorem C3_counterexample :
    runEngine initState c3Inputs = RunOut.ok c3Final c3Trace ∧
    Reachable c3Final ∧
    c3Final.read_file.isSome = true ∧
    c3Final.port.isSome = false :=
  ⟨by decide, ⟨c3Inputs, c3Trace, by decide⟩, by decide, by decide⟩

/-- Claim C3 amended: in every non-panicking engine step, an active transfer
or an active log sink can only be created while the device handle is
present; the unrestricted invariant fails because hot-unplug and a failed
change-port clear only the device handle, leaving transfer and log sink in
place. -/
theorem C3_creation_requires_port (s : EngineState) (i : TickInput)
    (s9 : EngineState) (ev : List Event) (h : stepFn s i = StepOut.ok s9 ev) :
    (s.read_file = Option.none → s9.read_file.isSome = true → s.port.isSome = true) ∧
    (s.write_file = Option.none → s9.write_file.isSome = true → s.port.isSome = true) := by
  unfold stepFn at h
  cases h1 : commandPhase s i with
  | panicked ev1 => rw [h1] at h; exact StepOut.noConfusion h
  | ok s1 ev1 =>
    rw [h1] at h
    dsimp only [] at h
    cases h2 : ioPhase s1 i with
    | panicked ev2 => rw [h2] at h; exact StepOut.noConfusion h
    | ok s2 ev2 =>
      rw [h2] at h
      dsimp only [] at h
      cases h3 : scanPhase s2 i with
      | panicked ev3 => rw [h3] at h; exact StepOut.noConfusion h
      | ok s3 ev3 =>
        rw [h3] at h
        dsimp only [] at h
        injection h with hs he
        subst hs; subst he
        obtain ⟨_, _, _, cRf, cWf⟩ := commandPhase_spec s i s1 ev1 h1
        obtain ⟨_, _, _, _, iWf, _, iMono⟩ := ioPhase_spec s1 i s2 ev2 h2
        obtain ⟨_, sRf, sWf⟩ := scanPhase_spec s2 i s3 ev3 h3
        constructor
        · intro hA hB
          rw [sRf] at hB
          rcases iMono with e | e
          · rw [e] at hB
            exact cRf hA hB
          · rw [e] at hB
            simp at hB
        · intro hA hB
          rw [sWf, iWf] at hB
          exact cWf hA hB

/-- Witness for C3 amended at a concrete input: an accepted send-file tick
creates the transfer, and the open device handle is present beforehand. -/
theorem C3_creation_requires_port_witness :
    (stepFn { initState with port := Option.some dev1 } sendFileInput =
       StepOut.ok
         { initState with port := Option.some dev1, read_file := Option.some 1,
                          bytes_total := 100 }
         [Event.resp SerialResponse.SendingFileStarted, Event.wake]) ∧
    ((({ initState with port := Option.some dev1 } : EngineState).read_file = Option.none →
      ({ initState with port := Option.some dev1, read_file := Option.some 1,
                        bytes_total := 100 } : EngineState).read_file.isSome = true →
      ({ initState with port := Option.some dev1 } : EngineState).port.isSome = true) ∧
     (({ initState with port := Option.some dev1 } : EngineState).write_file = Option.none →
      ({ initState with port := Option.some dev1, read_file := Option.some 1,
                        bytes_total := 100 } : EngineState).write_file.isSome = true →
      ({ initState with port := Option.some dev1 } : EngineState).port.isSome = true)) :=
  ⟨by decide,
   C3_creation_requires_port
     { initState with port := Option.some dev1 } sendFileInput
     { initState with port := Option.some dev1, read_file := Option.some 1,
                      bytes_total := 100 }
     [Event.resp SerialResponse.SendingFileStarted, Event.wake] (by decide)⟩

/-! ## Claim C4 -/

/-- Claim C4 counterexample: with no device open, two consecutive scans over
the identical enumeration ["COM1"] each emit a ports-found response; the
second is not suppressed, because the source performs no comparison against
a previously reported snapshot. The claim says the second scan must emit
nothing. -/
theorem C4_counterexample :
    runEngine initState [scanCom1Input, scanCom1Input] =
      RunOut.ok initState
        [Event.resp (SerialResponse.PortsFound ["COM1"]), Event.wake,
         Event.resp (SerialResponse.PortsFound ["COM1"]), Event.wake] := by decide

/-- Claim C4 amended: every scan whose enumeration succeeds and in which the
open device (if any) is still seen emits ports-found(new sorted list)
unconditionally — no snapshot comparison is performed, so unchanged
environments re-emit the same list on every scan. -/
theorem C4_scan_always_emits (s : EngineState) (i : TickInput) (l : List String)
    (h1 : i.scanElapsed = true) (h2 : i.scanPorts = Option.some l)
    (h3 : scanKeepsPort s (sortStrings l) = true) :
    scanPhase s i =
      StepOut.ok s [Event.resp (SerialResponse.PortsFound (sortStrings l)), Event.wake] := by
  unfold scanPhase
  rw [h1, h2]
  simp only [scanKeepsPort] at h3
  cases hp : s.port with
  | none => simp [hp]
  | some p =>
    cases hq : p.nameQ with
    | none => simp [hp, hq]
    | some n =>
      rw [hp] at h3
      simp only [hq] at h3
      have h3m : n ∈ sortStrings l := by simpa using h3
      simp [hp, hq, h3m]

/-- Witness for C4 amended: a scan at `initState` (no device open) over the
enumeration ["COM1"] emits ports-found(["COM1"]). -/
theorem C4_scan_always_emits_witness :
    (scanCom1Input.scanElapsed = true ∧
     scanCom1Input.scanPorts = Option.some ["COM1"] ∧
     scanKeepsPort initState (sortStrings ["COM1"]) = true) ∧
    scanPhase initState scanCom1Input =
      StepOut.ok initState
        [Event.resp (SerialResponse.PortsFound (sortStrings ["COM1"])), Event.wake] :=
  ⟨⟨rfl, rfl, by decide⟩,
   C4_scan_always_emits initState scanCom1Input ["COM1"] rfl rfl (by decide)⟩

/-! ## Claim C5 -/

/-- The pacer device of the C5 counterexample: five configured data bits,
parity none, one stop bit. -/
def c5Dev : Device :=
  { nameQ := Option.some "COM1"
    cfg := { baud_rate := 9600
             data_bits := DataBits.five
             flow_control := FlowControl.none
             parity := Parity.none
             stop_bits := StopBits.one } }

/-- Claim C5 counterexample: with five configured data bits, parity none and
one stop bit, the pacer's per-character bit count is 10 (the source
hard-codes `1 + 8` for start plus data bits), while the claimed formula
1 + data-bits + parity + stop-bits gives 7. -/
theorem C5_counterexample :
    byteAsSerialBits c5Dev = 10 ∧ specBitsPerChar c5Dev.cfg = 7 ∧
    byteAsSerialBits c5Dev ≠ specBitsPerChar c5Dev.cfg := by decide

/-- Claim C5 amended: the pacer's per-character bit count is 1 (start) + 8
(fixed, regardless of the configured data bits) + (1 if parity is not none)
+ stop bits, so it agrees with the claimed formula exactly when the
configured data bits are 8; the paced chunk is the byte rate
baud ÷ bit-count further divided by the ticks per second, i.e. pacing uses
the effective byte rate baud ÷ bit-count. -/
theorem C5_bits_fixed_at_eight (p : Device) :
    (byteAsSerialBits p = specBitsPerChar p.cfg ↔ p.cfg.data_bits = DataBits.eight) ∧
    txDataLen p = p.cfg.baud_rate / (byteAsSerialBits p * (1000 / loopTime)) := by
  constructor
  · obtain ⟨nq, b, db, fc, pa, sb⟩ := p
    cases db <;> cases pa <;> cases sb <;>
      simp [byteAsSerialBits, specBitsPerChar, dataBitsCount, stopBitsCount]
  · simp [txDataLen, Nat.div_div_eq_div_mul]

/-! ## Claim C6 -/

/-- Inputs of the C6 counterexample run: connect to "COM1", accept a
send-file, start a log sink, then a scan that no longer lists "COM1". -/
def c6Inputs : List TickInput := [connectInput, sendFileInput, logFileInput, unplugScanInput]

/-- Final state of the C6 counterexample run. -/
def c6Final : EngineState :=
  { port := Option.none, read_file := Option.some 1, bytes_read := 0,
    bytes_total := 100, last_percentage := 0, write_file := Option.some 2,
    settings := defaultSettings }

/-- Trace of the C6 counterexample run. -/
def c6Trace : List Event :=
  [Event.resp (SerialResponse.OpenPortSuccess "COM1"), Event.wake,
   Event.resp SerialResponse.SendingFileStarted, Event.wake,
   Event.resp (SerialResponse.UnexpectedDisconnection ["COM3"]), Event.wake]

/-- Claim C6 counterexample: on the hot-unplug scan the engine does emit
exactly one unexpected-disconnection (with the new sorted list) and no
ports-found, and clears the device handle — but the session is not cleared
as a disconnect would clear it: the active transfer (handle 1) and log sink
(handle 2) survive the scan, refuting "the session is cleared (same effect
as disconnect)". -/
theorem C6_counterexample :
    runEngine initState c6Inputs = RunOut.ok c6Final c6Trace ∧
    c6Final.port = Option.none ∧
    c6Final.read_file = Option.some 1 ∧
    c6Final.write_file = Option.some 2 := by decide

/-- Claim C6 amended: a scan performed while a device is open whose name is
absent from the new enumeration emits exactly one unexpected-disconnection
response carrying the new sorted list (and no ports-found in that scan) and
clears the device handle; unlike a disconnect, an active transfer and an
active log sink are retained. -/
theorem C6_unplug_clears_only_port (s : EngineState) (i : TickInput) (p : Device)
    (n : String) (l : List String)
    (h1 : s.port = Option.some p) (h2 : p.nameQ = Option.some n)
    (h3 : i.scanElapsed = true) (h4 : i.scanPorts = Option.some l)
    (h5 : (sortStrings l).contains n = false) :
    scanPhase s i =
      StepOut.ok { s with port := Option.none }
        [Event.resp (SerialResponse.UnexpectedDisconnection (sortStrings l)), Event.wake] := by
  unfold scanPhase
  rw [h3, h4]
  have h5m : ¬ n ∈ sortStrings l := by simpa using h5
  simp [h1, h2, h5m]

/-- Witness for C6 amended at a concrete input: "COM1" open with an active
transfer and log sink, scan enumeration ["COM3"]. -/
theorem C6_unplug_clears_only_port_witness :
    (({ initState with port := Option.some dev1, read_file := Option.some 1,
                       write_file := Option.some 2 } : EngineState).port = Option.some dev1 ∧
     dev1.nameQ = Option.some "COM1" ∧
     unplugScanInput.scanElapsed = true ∧
     unplugScanInput.scanPorts = Option.some ["COM3"] ∧
     (sortStrings ["COM3"]).contains "COM1" = false) ∧
    scanPhase
      { initState with port := Option.some dev1, read_file := Option.some 1,
                       write_file := Option.some 2 }
      unplugScanInput =
      StepOut.ok
        { initState with port := Option.none, read_file := Option.some 1,
                         write_file := Option.some 2 }
        [Event.resp (SerialResponse.UnexpectedDisconnection (sortStrings ["COM3"])),
         Event.wake] :=
  ⟨⟨rfl, rfl, rfl, rfl, by decide⟩,
   C6_unplug_clears_only_port
     { initState with port := Option.some dev1, read_file := Option.some 1,
                      write_file := Option.some 2 }
     unplugScanInput dev1 "COM1" ["COM3"] rfl rfl rfl rfl (by decide)⟩

/-! ## Claim C7 -/

/-- Claim C7 (code behavior at the failing input): the change-port success
path enqueues OpenPortSuccess but does not invoke the wake callback — the
emitted event list is a bare response with no following wake — so not every
enqueue is followed by a synchronous wake invocation. -/
theorem C7_changeport_success_skips_wake (s : EngineState) (i : TickInput) (n : String)
    (h1 : i.cmd = Option.some (SerialCommand.ChangePort n))
    (h2 : s.port.isSome = true) (h3 : i.openResult = OpenOutcome.ok) :
    commandPhase s i =
      StepOut.ok { s with port := Option.some { nameQ := Option.some n, cfg := s.settings } }
        [Event.resp (SerialResponse.OpenPortSuccess n)] ∧
    wakeAfterEveryResp [Event.resp (SerialResponse.OpenPortSuccess n)] = false := by
  obtain ⟨p, hp⟩ := Option.isSome_iff_exists.mp h2
  constructor
  · simp [commandPhase, h1, applyCommand, hp, h3]
  · rfl

/-- Witness for C7 at a concrete input: change-port to "COM2" with "COM1"
open and a successful reopen. -/
theorem C7_changeport_success_skips_wake_witness :
    (({ baseInput with cmd := Option.some (SerialCommand.ChangePort "COM2") } : TickInput).cmd
       = Option.some (SerialCommand.ChangePort "COM2") ∧
     ({ initState with port := Option.some dev1 } : EngineState).port.isSome = true ∧
     ({ baseInput with cmd := Option.some (SerialCommand.ChangePort "COM2") } : TickInput).openResult
       = OpenOutcome.ok) ∧
    (commandPhase { initState with port := Option.some dev1 }
        { baseInput with cmd := Option.some (SerialCommand.ChangePort "COM2") } =
      StepOut.ok
        { initState with
            port := Option.some { nameQ := Option.some "COM2", cfg := initState.settings } }
        [Event.resp (SerialResponse.OpenPortSuccess "COM2")] ∧
     wakeAfterEveryResp [Event.resp (SerialResponse.OpenPortSuccess "COM2")] = false) :=
  ⟨⟨rfl, by decide, rfl⟩,
   C7_changeport_success_skips_wake
     { initState with port := Option.some dev1 }
     { baseInput with cmd := Option.some (SerialCommand.ChangePort "COM2") }
     "COM2" rfl (by decide) rfl⟩

/-! ## Claim C9 -/

/-- Claim C9: a disconnect command, in every engine state (including with
nothing open), clears the device handle, any active transfer and any active
log sink, emits disconnect-success (followed by its wake), and changes no
other engine state: the bytes counters, last reported percentage and link
settings are all retained by the resulting state. -/
theorem C9_disconnect_clears_all (s : EngineState) (i : TickInput)
    (h : i.cmd = Option.some SerialCommand.Disconnect) :
    commandPhase s i =
      StepOut.ok
        { s with port := Option.none, read_file := Option.none, write_file := Option.none }
        [Event.resp SerialResponse.DisconnectSuccess, Event.wake] := by
  simp [commandPhase, h, applyCommand]

/-- Witness for C9 at a concrete input: a state with a device, a transfer and
a log sink all open. -/
theorem C9_disconnect_clears_all_witness :
    (disconnectInput.cmd = Option.some SerialCommand.Disconnect) ∧
    commandPhase
      { initState with port := Option.some dev1, read_file := Option.some 1,
                       write_file := Option.some 2, bytes_read := 3, bytes_total := 7,
                       last_percentage := 40 }
      disconnectInput =
      StepOut.ok
        { initState with port := Option.none, read_file := Option.none,
                         write_file := Option.none, bytes_read := 3, bytes_total := 7,
                         last_percentage := 40 }
        [Event.resp SerialResponse.DisconnectSuccess, Event.wake] :=
  ⟨rfl,
   C9_disconnect_clears_all
     { initState with port := Option.some dev1, read_file := Option.some 1,
                      write_file := Option.some 2, bytes_read := 3, bytes_total := 7,
                      last_percentage := 40 }
     disconnectInput rfl⟩

/-! ## Claim C10 -/

/-- Claim C10: a send-file command processed while a device is open, whose
`fs::metadata` size query fails, panics the engine thread on the `unwrap`
(emitting no events, in particular no sending-file-error), terminating the
engine. -/
theorem C10_sendfile_metadata_panics (s : EngineState) (i : TickInput) (f : String)
    (h1 : i.cmd = Option.some (SerialCommand.SendFile f))
    (h2 : s.port.isSome = true)
    (h3 : i.metadataLen = Option.none) :
    stepFn s i = StepOut.panicked [] := by
  obtain ⟨p, hp⟩ := Option.isSome_iff_exists.mp h2
  simp [stepFn, commandPhase, h1, applyCommand, hp, h3]

/-- Witness for C10 at a concrete input: send-file of "missing.bin" (whose
metadata query fails) with "COM1" open. -/
theorem C10_sendfile_metadata_panics_witness :
    (({ baseInput with cmd := Option.some (SerialCommand.SendFile "missing.bin") } : TickInput).cmd
       = Option.some (SerialCommand.SendFile "missing.bin") ∧
     ({ initState with port := Option.some dev1 } : EngineState).port.isSome = true ∧
     ({ baseInput with cmd := Option.some (SerialCommand.SendFile "missing.bin") } : TickInput).metadataLen
       = Option.none) ∧
    stepFn { initState with port := Option.some dev1 }
      { baseInput with cmd := Option.some (SerialCommand.SendFile "missing.bin") }
      = StepOut.panicked [] :=
  ⟨⟨rfl, by decide, rfl⟩,
   C10_sendfile_metadata_panics
     { initState with port := Option.some dev1 }
     { baseInput with cmd := Option.some (SerialCommand.SendFile "missing.bin") }
     "missing.bin" rfl (by decide) rfl⟩

end Gattii
